import Mathlib

/-!
Verification of the Apple DCP display-coprocessor driver (drivers/gpu/drm/apple):
a shallow embedding of the call-depth bookkeeping (iomfb.c), the structured-data
parser and display-mode extractor (parser.c), the callback-tag parser, the
chunked property transfer, and the memory-descriptor callbacks, with theorems
checking the natural-language specification against the code.

Machine integers are modelled as Nat/Int with explicit reductions modulo
2^8, 2^16, 2^32 or 2^64 exactly where the C types truncate.
-/

/-! ## Call-depth bookkeeping (iomfb.c, dcp_push_depth / dcp_pop_depth)

The C functions operate on a u8 depth counter:

  static u8 dcp_push_depth(u8 *depth) {
      u8 ret = (*depth)++;
      WARN_ON(ret >= DCP_MAX_CALL_DEPTH);
      return ret;
  }
  static u8 dcp_pop_depth(u8 *depth) {
      WARN_ON((*depth) == 0);
      return --(*depth);
  }

WARN_ON emits a kernel warning and execution continues; it is modelled by the
`warned` flag.  `new_depth` is the value stored back through the pointer,
`ret` is the function's return value.  u8 arithmetic wraps modulo 256. -/

def DCP_MAX_CALL_DEPTH : Nat := 8

structure DepthOpResult where
  new_depth : Nat
  ret : Nat
  warned : Bool
deriving Repr, DecidableEq

def dcp_push_depth (depth : Nat) : DepthOpResult :=
  { new_depth := (depth + 1) % 256
    ret := depth
    warned := decide (DCP_MAX_CALL_DEPTH ≤ depth) }

def dcp_pop_depth (depth : Nat) : DepthOpResult :=
  { new_depth := (depth + 255) % 256
    ret := (depth + 255) % 256
    warned := decide (depth = 0) }

/-- C1 counterexample: a push on a channel already at depth
DCP_MAX_CALL_DEPTH = 8 is not fatal and does proceed: the stored depth becomes
9, which exceeds MAX_DEPTH, the out-of-range old depth 8 is returned to the
caller (which would index the 8-entry per-depth stacks out of range), and only
a warning flag is raised.  Likewise pop at depth 0 proceeds and wraps the u8
counter to 255.  This refutes the claim that the depth never exceeds MAX_DEPTH
and that the violating push/pop is a fail-fast assertion that does not
proceed. -/
theorem C1_counterexample :
    (dcp_push_depth 8).new_depth = 9 ∧
    DCP_MAX_CALL_DEPTH < (dcp_push_depth 8).new_depth ∧
    (dcp_push_depth 8).ret = 8 ∧
    ¬ (dcp_push_depth 8).ret < DCP_MAX_CALL_DEPTH ∧
    (dcp_push_depth 8).warned = true ∧
    (dcp_pop_depth 0).new_depth = 255 ∧
    (dcp_pop_depth 0).warned = true := by
  decide

/-- C1 amended: push_depth returns the old depth and increments the counter
modulo 256; a push starting at depth below MAX_DEPTH raises no warning, keeps
the depth at most MAX_DEPTH and returns an in-range stack index; a push
starting at depth at least MAX_DEPTH raises a kernel warning (WARN_ON) but
still increments the counter and returns the out-of-range old depth to the
caller, so nothing stops the per-depth stacks from being indexed out of range;
pop_depth warns exactly at depth 0, where it wraps the u8 counter to 255, and
otherwise decrements without warning. -/
theorem C1_depth_ops (d : Nat) (hd : d < 256) :
    ((dcp_push_depth d).ret = d ∧ (dcp_push_depth d).new_depth = (d + 1) % 256) ∧
    ((dcp_push_depth d).warned = true ↔ DCP_MAX_CALL_DEPTH ≤ d) ∧
    (d < DCP_MAX_CALL_DEPTH →
      (dcp_push_depth d).new_depth = d + 1 ∧
      (dcp_push_depth d).new_depth ≤ DCP_MAX_CALL_DEPTH ∧
      (dcp_push_depth d).ret < DCP_MAX_CALL_DEPTH) ∧
    (DCP_MAX_CALL_DEPTH ≤ d → DCP_MAX_CALL_DEPTH ≤ (dcp_push_depth d).ret) ∧
    ((dcp_pop_depth d).warned = true ↔ d = 0) ∧
    (0 < d → (dcp_pop_depth d).new_depth = d - 1) ∧
    (dcp_pop_depth 0).new_depth = 255 := by
  refine ⟨⟨rfl, rfl⟩, ?_, fun h => ⟨?_, ?_, ?_⟩, fun h => ?_, ?_, fun h => ?_, by decide⟩ <;>
    simp only [dcp_push_depth, dcp_pop_depth, DCP_MAX_CALL_DEPTH, decide_eq_true_eq] at * <;>
    omega

/-- C1 witness: the amended characterization evaluated at the concrete
depth 7 (the deepest legal starting depth). -/
theorem C1_depth_ops_witness :
    (dcp_push_depth 7).ret = 7 ∧ (dcp_push_depth 7).new_depth = 7 + 1 ∧
    (dcp_push_depth 7).new_depth ≤ DCP_MAX_CALL_DEPTH ∧
    (dcp_push_depth 7).ret < DCP_MAX_CALL_DEPTH ∧
    (dcp_pop_depth 7).new_depth = 7 - 1 := by
  have h := C1_depth_ops 7 (by decide)
  exact ⟨h.1.1, (h.2.2.1 (by decide)).1, (h.2.2.1 (by decide)).2.1,
    (h.2.2.1 (by decide)).2.2, h.2.2.2.2.2.1 (by decide)⟩

/-! ## Color-mode selection (parser.c, parse_color_modes)

Each array element is a dictionary walked key by key.  The C local
`struct color_mode cmode` is stack garbage before any key assigns a field, so
each entry carries its own initial (garbage) record; `is_virtual` by contrast
is explicitly initialized to true for every entry.  Unrecognized keys are
skipped.  After the walk an entry is considered only when it is non-virtual
with score and id both non-negative, and it displaces the running best only
under a strict score comparison (best_score starts at -1). -/

structure color_mode where
  colorimetry : Int
  depth : Int
  dynamic_range : Int
  eotf : Int
  id : Int
  pixel_encoding : Int
  score : Int
deriving Repr, DecidableEq

inductive CMField where
  | colorimetry (v : Int)
  | depth (v : Int)
  | dynamicRange (v : Int)
  | eotf (v : Int)
  | id (v : Int)
  | isVirtual (b : Bool)
  | pixelEncoding (v : Int)
  | score (v : Int)
  | other
deriving Repr, DecidableEq

def apply_cm_field (st : color_mode × Bool) (f : CMField) : color_mode × Bool :=
  match f with
  | .colorimetry v => ({ st.1 with colorimetry := v }, st.2)
  | .depth v => ({ st.1 with depth := v }, st.2)
  | .dynamicRange v => ({ st.1 with dynamic_range := v }, st.2)
  | .eotf v => ({ st.1 with eotf := v }, st.2)
  | .id v => ({ st.1 with id := v }, st.2)
  | .isVirtual b => (st.1, b)
  | .pixelEncoding v => ({ st.1 with pixel_encoding := v }, st.2)
  | .score v => ({ st.1 with score := v }, st.2)
  | .other => st

/-- Walk one color-mode dictionary: fields are applied in order over the
garbage initial record, with is_virtual starting at true. -/
def parse_cm_entry (init : color_mode) (fs : List CMField) : color_mode × Bool :=
  fs.foldl apply_cm_field (init, true)

/-- One iteration of the selection loop of parse_color_modes; best is the
(best_score, best_id) accumulator. -/
def cm_step (best : Int × Int) (e : color_mode × List CMField) : Int × Int :=
  let r := parse_cm_entry e.1 e.2
  if r.2 = true ∨ r.1.score < 0 ∨ r.1.id < 0 then best
  else if best.1 < r.1.score then (r.1.score, r.1.id) else best

/-- parse_color_modes: returns best_id (the s64 written through the out
pointer); best_score and best_id both start at -1. -/
def parse_color_modes (entries : List (color_mode × List CMField)) : Int :=
  (entries.foldl cm_step (-1, -1)).2

/-- Spec-side qualification predicate from the spec text: non-virtual,
non-negative score, non-negative id. -/
def cm_qualifies (e : color_mode × List CMField) : Bool :=
  let r := parse_cm_entry e.1 e.2
  !r.2 && decide (0 ≤ r.1.score) && decide (0 ≤ r.1.id)

def cm_pair (e : color_mode × List CMField) : Int × Int :=
  ((parse_cm_entry e.1 e.2).1.score, (parse_cm_entry e.1 e.2).1.id)

/-- Modelled from the spec: select the (score, id) pair with the maximum
score, ties broken first-seen-wins, (-1, -1) when the list is empty. -/
def spec_best : List (Int × Int) → Int × Int
  | [] => (-1, -1)
  | p :: ps =>
    let q := spec_best ps
    if q.1 ≤ p.1 then p else q

/-- Modelled from the spec: the id of the first-seen maximum-score
qualifying entry, or -1 when no entry qualifies. -/
def spec_best_id (entries : List (color_mode × List CMField)) : Int :=
  (spec_best ((entries.filter cm_qualifies).map cm_pair)).2

lemma spec_best_lower (l : List (Int × Int)) : -1 ≤ (spec_best l).1 := by
  induction l with
  | nil => simp [spec_best]
  | cons p ps ih =>
    simp only [spec_best]
    split <;> omega

lemma foldl_cm_step_best (l : List (Int × Int)) :
    ∀ b : Int × Int, (∀ p ∈ l, 0 ≤ p.1) → -1 ≤ b.1 →
    l.foldl (fun b p => if b.1 < p.1 then p else b) b =
      if (spec_best l).1 ≤ b.1 then b else spec_best l := by
  induction l with
  | nil =>
    intro b _ hb
    simp only [List.foldl_nil, spec_best]
    rw [if_pos hb]
  | cons p ps ih =>
    intro b hl hb
    have hp : 0 ≤ p.1 := hl p (by simp)
    have hps : ∀ q ∈ ps, 0 ≤ q.1 := fun q hq => hl q (by simp [hq])
    have hs := spec_best_lower ps
    simp only [List.foldl_cons]
    rw [ih _ hps (by split <;> omega)]
    simp only [spec_best]
    by_cases h1 : b.1 < p.1 <;> by_cases h2 : (spec_best ps).1 ≤ p.1 <;>
      simp only [h1, h2, if_true, if_false] <;>
      split_ifs <;> first | rfl | (exfalso; omega)

lemma cm_qualifies_score_nonneg {e : color_mode × List CMField}
    (h : cm_qualifies e = true) : 0 ≤ (cm_pair e).1 := by
  unfold cm_qualifies at h
  unfold cm_pair
  simp only [Bool.and_eq_true, decide_eq_true_eq] at h
  exact h.1.2

lemma spec_best_nonneg (p : Int × Int) (ps : List (Int × Int))
    (h : ∀ q ∈ p :: ps, 0 ≤ q.1) : 0 ≤ (spec_best (p :: ps)).1 := by
  have h1 := spec_best_lower ps
  have h2 := h p (by simp)
  simp only [spec_best]
  split <;> omega

lemma cm_step_eq (b : Int × Int) (e : color_mode × List CMField) :
    cm_step b e =
      if cm_qualifies e = true then
        (if b.1 < (cm_pair e).1 then cm_pair e else b)
      else b := by
  unfold cm_step cm_qualifies cm_pair
  by_cases h1 : (parse_cm_entry e.1 e.2).2 = true <;>
    by_cases h2 : (0:Int) ≤ (parse_cm_entry e.1 e.2).1.score <;>
    by_cases h3 : (0:Int) ≤ (parse_cm_entry e.1 e.2).1.id <;>
    simp [h1, h2, h3]

lemma foldl_cm_step_filter (entries : List (color_mode × List CMField)) :
    ∀ b : Int × Int,
    entries.foldl cm_step b =
      ((entries.filter cm_qualifies).map cm_pair).foldl
        (fun b p => if b.1 < p.1 then p else b) b := by
  induction entries with
  | nil => intro b; rfl
  | cons e es ih =>
    intro b
    rw [List.foldl_cons, cm_step_eq b e, List.filter_cons]
    by_cases h : cm_qualifies e = true
    · simp [h, ih]
    · simp [h, ih]

/-- C2: parse_color_modes returns the ID of the color mode with the maximum
Score among the qualifying entries (non-virtual, Score at least 0, ID at
least 0); the reference selection spec_best breaks score ties
first-seen-wins (an entry displaces the running best only under a strict
comparison), and when no entry qualifies the result is -1. -/
theorem C2_best_color_mode (entries : List (color_mode × List CMField)) :
    parse_color_modes entries = spec_best_id entries := by
  unfold parse_color_modes spec_best_id
  rw [foldl_cm_step_filter]
  have hsc : ∀ p ∈ (entries.filter cm_qualifies).map cm_pair, 0 ≤ p.1 := by
    intro p hp
    rcases List.mem_map.1 hp with ⟨e, he, rfl⟩
    exact cm_qualifies_score_nonneg (List.mem_filter.1 he).2
  rw [foldl_cm_step_best _ _ hsc (by norm_num)]
  cases hl : (entries.filter cm_qualifies).map cm_pair with
  | nil => simp [spec_best]
  | cons p ps =>
    have h0 : 0 ≤ (spec_best (p :: ps)).1 := by
      refine spec_best_nonneg p ps ?_
      rw [← hl]
      exact hsc
    rw [if_neg (by omega)]

lemma no_false_virtual_fold (fs : List CMField)
    (h : ∀ f ∈ fs, f ≠ CMField.isVirtual false) :
    ∀ st : color_mode × Bool, st.2 = true → (fs.foldl apply_cm_field st).2 = true := by
  induction fs with
  | nil => intro st hst; simpa using hst
  | cons f fs ih =>
    intro st hst
    have hfs : ∀ g ∈ fs, g ≠ CMField.isVirtual false :=
      fun g hg => h g (List.mem_cons_of_mem _ hg)
    rw [List.foldl_cons]
    refine ih hfs _ ?_
    cases f with
    | colorimetry v => simpa [apply_cm_field] using hst
    | depth v => simpa [apply_cm_field] using hst
    | dynamicRange v => simpa [apply_cm_field] using hst
    | eotf v => simpa [apply_cm_field] using hst
    | id v => simpa [apply_cm_field] using hst
    | isVirtual b =>
      cases b with
      | false => exact absurd rfl (h (CMField.isVirtual false) (List.mem_cons_self _ _))
      | true => rfl
    | pixelEncoding v => simpa [apply_cm_field] using hst
    | score v => simpa [apply_cm_field] using hst
    | other => simpa [apply_cm_field] using hst

/-- C10: a color-mode dictionary entry carrying no explicit IsVirtual=false
assignment (in particular, one with no IsVirtual key at all) parses with
is_virtual = true, because the flag is initialized to true for every entry;
such an entry never qualifies and the selection loop leaves the running
(best_score, best_id) accumulator unchanged, regardless of its Score and ID
values. -/
theorem C10_default_virtual (init : color_mode) (fs : List CMField)
    (best : Int × Int) (h : ∀ f ∈ fs, f ≠ CMField.isVirtual false) :
    (parse_cm_entry init fs).2 = true ∧
    cm_qualifies (init, fs) = false ∧
    cm_step best (init, fs) = best := by
  have hv : (parse_cm_entry init fs).2 = true :=
    no_false_virtual_fold fs h (init, true) rfl
  refine ⟨hv, ?_, ?_⟩
  · simp [cm_qualifies, hv]
  · simp [cm_step, hv]

/-- C10 witness: an entry assigning Score 5 and ID 2 but carrying no
IsVirtual key parses as virtual, fails to qualify, and leaves the
accumulator (-1, -1) untouched. -/
theorem C10_default_virtual_witness :
    (parse_cm_entry ⟨0, 0, 0, 0, 0, 0, 0⟩ [CMField.score 5, CMField.id 2]).2 = true ∧
    cm_qualifies (⟨0, 0, 0, 0, 0, 0, 0⟩, [CMField.score 5, CMField.id 2]) = false ∧
    cm_step (-1, -1) (⟨0, 0, 0, 0, 0, 0, 0⟩, [CMField.score 5, CMField.id 2]) = (-1, -1) :=
  C10_default_virtual ⟨0, 0, 0, 0, 0, 0, 0⟩ [CMField.score 5, CMField.id 2] (-1, -1)
    (by decide)

/-! ## Display-mode extraction (parser.c, parse_dimension / calculate_clock /
parse_mode / enumerate_modes)

A TimingElements entry is a dictionary walked key by key.  The C locals
`struct dimension horiz, vert` and the out-parameter score are stack garbage
until a key assigns them, so they appear as initial-value parameters.  Once
the IsVirtual key has set is_virtual to true, every later key of the entry is
skipped (including a later IsVirtual=false).  The drm_display_mode timing
fields are u16 and the clock is produced by calculate_clock through u32
truncation, modelled by toU16 / toU32. -/

structure dimension where
  total : Int
  front_porch : Int
  sync_width : Int
  active : Int
  precise_sync_rate : Int
deriving Repr, DecidableEq, Inhabited

inductive DimField where
  | active (v : Int)
  | total (v : Int)
  | frontPorch (v : Int)
  | syncWidth (v : Int)
  | preciseSyncRate (v : Int)
  | other
deriving Repr, DecidableEq

def apply_dim_field (d : dimension) (f : DimField) : dimension :=
  match f with
  | .active v => { d with active := v }
  | .total v => { d with total := v }
  | .frontPorch v => { d with front_porch := v }
  | .syncWidth v => { d with sync_width := v }
  | .preciseSyncRate v => { d with precise_sync_rate := v }
  | .other => d

def parse_dimension (init : dimension) (fs : List DimField) : dimension :=
  fs.foldl apply_dim_field init

inductive TMField where
  | horizontalAttributes (fs : List DimField)
  | verticalAttributes (fs : List DimField)
  | colorModes (entries : List (color_mode × List CMField))
  | idKey (v : Int)
  | isVirtual (b : Bool)
  | scoreKey (v : Int)
  | other
deriving Repr, DecidableEq

structure parse_mode_state where
  horiz : dimension
  vert : dimension
  id : Int
  best_color_mode : Int
  is_virtual : Bool
  score : Int
deriving Repr, DecidableEq

/-- One key of the parse_mode dictionary walk; after IsVirtual has become
true every remaining value is skipped. -/
def apply_tm_field (st : parse_mode_state) (f : TMField) : parse_mode_state :=
  if st.is_virtual = true then st
  else match f with
  | .horizontalAttributes fs => { st with horiz := parse_dimension st.horiz fs }
  | .verticalAttributes fs => { st with vert := parse_dimension st.vert fs }
  | .colorModes es => { st with best_color_mode := parse_color_modes es }
  | .idKey v => { st with id := v }
  | .isVirtual b => { st with is_virtual := b }
  | .scoreKey v => { st with score := v }
  | .other => st

def parse_mode_fold (initH initV : dimension) (initScore : Int)
    (fs : List TMField) : parse_mode_state :=
  fs.foldl apply_tm_field
    { horiz := initH, vert := initV, id := -1, best_color_mode := -1,
      is_virtual := false, score := initScore }

/-- Truncation of an s64 value stored into a u16 drm timing field. -/
def toU16 (x : Int) : Nat := (x % 65536).toNat

/-- Truncation of an s64 value converted to u32. -/
def toU32 (x : Int) : Nat := (x % 4294967296).toNat

/-- calculate_clock: u32 pixels = horiz.total * vert.total (s64 product
truncated to u32); u64 clock = mul_u32_u32(pixels, precise_sync_rate)
(second argument also truncated to u32); result
DIV_ROUND_CLOSEST_ULL(clock >> 16, 1000) truncated back to u32. -/
def calculate_clock (horiz vert : dimension) : Nat :=
  let pixels : Nat := toU32 (horiz.total * vert.total)
  let clock : Nat := (pixels * toU32 vert.precise_sync_rate) % 18446744073709551616
  ((clock / 65536 + 500) / 1000) % 4294967296

structure drm_display_mode where
  clock : Nat
  hdisplay : Nat
  hsync_start : Nat
  hsync_end : Nat
  htotal : Nat
  vdisplay : Nat
  vsync_start : Nat
  vsync_end : Nat
  vtotal : Nat
deriving Repr, DecidableEq, Inhabited

structure dcp_display_mode where
  mode : drm_display_mode
  timing_mode_id : Int
  color_mode_id : Int
deriving Repr, DecidableEq, Inhabited

/-- The 120 Hz deny-list condition of parse_mode: precise_sync_rate shifted
arithmetically right by 16 (floor division, matching the s64 shift) equal to
120, at active resolution 3024x1964 or 3456x2234. -/
def mode_denied (st : parse_mode_state) : Prop :=
  Int.fdiv st.vert.precise_sync_rate 65536 = 120 ∧
    ((st.horiz.active = 3024 ∧ st.vert.active = 1964) ∨
     (st.horiz.active = 3456 ∧ st.vert.active = 2234))

instance mode_denied_decidable : DecidablePred mode_denied := by
  unfold mode_denied
  infer_instance

/-- The notch adjustment followed by the emission of the drm timing fields
(the always-succeeding tail of parse_mode). -/
def emit_mode (st : parse_mode_state) (notch_height : Nat) : dcp_display_mode :=
  let vert : dimension :=
    { st.vert with active := st.vert.active - (notch_height : Int),
                   sync_width := st.vert.sync_width + (notch_height : Int) }
  let horiz := st.horiz
  { mode :=
      { clock := calculate_clock horiz vert
        hdisplay := toU16 horiz.active
        hsync_start := toU16 (horiz.active + horiz.front_porch)
        hsync_end := toU16 (horiz.active + horiz.front_porch + horiz.sync_width)
        htotal := toU16 horiz.total
        vdisplay := toU16 vert.active
        vsync_start := toU16 (vert.active + vert.front_porch)
        vsync_end := toU16 (vert.active + vert.front_porch + vert.sync_width)
        vtotal := toU16 vert.total }
    timing_mode_id := st.id
    color_mode_id := st.best_color_mode }

/-- parse_mode: walk the entry, then reject (none) on missing color mode,
virtual mode, or the 120 Hz deny-list; otherwise apply the notch adjustment
and emit the drm timing fields. -/
def parse_mode (initH initV : dimension) (initScore : Int) (fs : List TMField)
    (notch_height : Nat) : Option dcp_display_mode :=
  if (parse_mode_fold initH initV initScore fs).best_color_mode < 0 then none
  else if (parse_mode_fold initH initV initScore fs).is_virtual = true then none
  else if mode_denied (parse_mode_fold initH initV initScore fs) then none
  else some (emit_mode (parse_mode_fold initH initV initScore fs) notch_height)

/-- enumerate_modes: per-entry errors are recoverable, the entry is skipped;
each parse_mode call has its own garbage initial dimensions and score. -/
def enumerate_modes (entries : List ((dimension × dimension × Int) × List TMField))
    (notch_height : Nat) : List dcp_display_mode :=
  entries.filterMap (fun e => parse_mode e.1.1 e.1.2.1 e.1.2.2 e.2 notch_height)

/-- All-zero garbage values used for the concrete instances. -/
def dim0 : dimension := ⟨0, 0, 0, 0, 0⟩

def cm0 : color_mode := ⟨0, 0, 0, 0, 0, 0, 0⟩

/-- A TimingElements entry with IsVirtual=true. -/
def tm_virtual_entry : List TMField := [TMField.isVirtual true]

/-- A fully specified non-virtual TimingElements entry with a valid color
mode, outside the 120 Hz deny-list. -/
def tm_good_entry : List TMField :=
  [TMField.horizontalAttributes
    [DimField.active 1920, DimField.total 2000, DimField.frontPorch 8,
     DimField.syncWidth 32, DimField.preciseSyncRate 0],
   TMField.verticalAttributes
    [DimField.active 1080, DimField.total 1111, DimField.frontPorch 3,
     DimField.syncWidth 5, DimField.preciseSyncRate 3932160],
   TMField.colorModes [(cm0, [CMField.id 3, CMField.isVirtual false, CMField.score 80])],
   TMField.idKey 7, TMField.isVirtual false, TMField.scoreKey 80]

/-- C3: parse_mode contributes nothing (returns none) exactly when the walked
entry has no valid color mode (best_color_mode below 0), or is virtual, or
matches the 120 Hz deny-list (precise_sync_rate arithmetically shifted right
by 16 equal to 120 with active resolution 3024x1964 or 3456x2234); and a
concrete two-entry TimingElements array with one IsVirtual=true entry and one
IsVirtual=false entry yields exactly the one parsed mode of the non-virtual
entry. -/
theorem C3_mode_rejection :
    (∀ (initH initV : dimension) (initScore : Int) (fs : List TMField) (n : Nat),
      parse_mode initH initV initScore fs n = none ↔
        ((parse_mode_fold initH initV initScore fs).best_color_mode < 0 ∨
         (parse_mode_fold initH initV initScore fs).is_virtual = true ∨
         (Int.fdiv (parse_mode_fold initH initV initScore fs).vert.precise_sync_rate 65536 = 120 ∧
          (((parse_mode_fold initH initV initScore fs).horiz.active = 3024 ∧
            (parse_mode_fold initH initV initScore fs).vert.active = 1964) ∨
           ((parse_mode_fold initH initV initScore fs).horiz.active = 3456 ∧
            (parse_mode_fold initH initV initScore fs).vert.active = 2234))))) ∧
    enumerate_modes [((dim0, dim0, 0), tm_virtual_entry), ((dim0, dim0, 0), tm_good_entry)] 0 =
      (parse_mode dim0 dim0 0 tm_good_entry 0).toList ∧
    (parse_mode dim0 dim0 0 tm_good_entry 0).isSome = true ∧
    parse_mode dim0 dim0 0 tm_virtual_entry 0 = none := by
  refine ⟨?_, by decide, by decide, by decide⟩
  intro initH initV initScore fs n
  unfold parse_mode
  split_ifs with h1 h2 h3 <;> simp_all [mode_denied]

lemma toU32_of_range {x : Int} (h1 : 0 ≤ x) (h2 : x < 4294967296) :
    toU32 x = x.toNat := by
  unfold toU32
  rw [Int.emod_eq_of_lt h1 h2]

lemma toU16_of_range {x : Int} (h1 : 0 ≤ x) (h2 : x < 65536) :
    (toU16 x : Int) = x := by
  unfold toU16
  rw [Int.emod_eq_of_lt h1 h2, Int.toNat_of_nonneg h1]

/-- C4: when the pixel count fits a u32, the 16.16 refresh rate fits a u32
and the rounded result fits a u32, calculate_clock returns exactly
round-half-up of ((total pixels times precise_sync_rate) shifted right 16)
divided by 1000, i.e. the wide 64-bit intermediate loses nothing. -/
theorem C4_calculate_clock (h v : dimension)
    (h1 : 0 ≤ h.total) (h2 : 0 ≤ v.total)
    (h3 : h.total * v.total < 4294967296)
    (h4 : 0 ≤ v.precise_sync_rate) (h5 : v.precise_sync_rate < 4294967296)
    (h6 : ((h.total * v.total * v.precise_sync_rate).toNat / 65536 + 500) / 1000
      < 4294967296) :
    calculate_clock h v =
      ((h.total * v.total * v.precise_sync_rate).toNat / 65536 + 500) / 1000 := by
  have hp : 0 ≤ h.total * v.total := mul_nonneg h1 h2
  have hmul : (h.total * v.total).toNat * v.precise_sync_rate.toNat
      = (h.total * v.total * v.precise_sync_rate).toNat := by
    have hq : 0 ≤ h.total * v.total * v.precise_sync_rate := mul_nonneg hp h4
    have hcast : (((h.total * v.total).toNat * v.precise_sync_rate.toNat : Nat) : Int)
        = (((h.total * v.total * v.precise_sync_rate).toNat : Nat) : Int) := by
      push_cast [Int.toNat_of_nonneg hp, Int.toNat_of_nonneg h4, Int.toNat_of_nonneg hq]
      ring
    exact_mod_cast hcast
  have hlt : (h.total * v.total * v.precise_sync_rate).toNat < 18446744073709551616 := by
    rw [← hmul]
    have ha : (h.total * v.total).toNat < 4294967296 := by omega
    have hb : v.precise_sync_rate.toNat < 4294967296 := by omega
    calc (h.total * v.total).toNat * v.precise_sync_rate.toNat
        < 4294967296 * 4294967296 :=
          mul_lt_mul'' ha hb (Nat.zero_le _) (Nat.zero_le _)
      _ = 18446744073709551616 := by norm_num
  simp only [calculate_clock]
  rw [toU32_of_range hp h3, toU32_of_range h4 h5, hmul,
    Nat.mod_eq_of_lt hlt, Nat.mod_eq_of_lt h6]

/-- C4 witness: horizontal total 3200, vertical total 1800 and
precise_sync_rate 60 in 16.16 fixed point (3932160) give exactly 345600 kHz. -/
theorem C4_calculate_clock_witness :
    calculate_clock ⟨3200, 0, 0, 0, 0⟩ ⟨1800, 0, 0, 0, 3932160⟩ = 345600 := by
  have h := C4_calculate_clock ⟨3200, 0, 0, 0, 0⟩ ⟨1800, 0, 0, 0, 3932160⟩
    (by decide) (by decide) (by decide) (by decide) (by decide) (by decide)
  rw [h]
  decide

/-- C5: for every accepted mode, the notch adjustment subtracts
notch_height from the vertical active pixel count and adds it to the
vertical sync width before the timing fields are emitted: vdisplay is the
adjusted active count, vsync_start is adjusted active plus front porch, and
vsync_end minus vsync_start is the adjusted sync width (original sync width
plus notch_height); the range bounds say the emitted values fit the u16
timing fields. -/
theorem C5_notch_adjustment (initH initV : dimension) (initScore : Int)
    (fs : List TMField) (n : Nat) (out : dcp_display_mode)
    (hout : parse_mode initH initV initScore fs n = some out)
    (ha1 : 0 ≤ (parse_mode_fold initH initV initScore fs).vert.active - (n : Int))
    (ha2 : (parse_mode_fold initH initV initScore fs).vert.active - (n : Int) < 65536)
    (hb1 : 0 ≤ (parse_mode_fold initH initV initScore fs).vert.active - (n : Int) +
      (parse_mode_fold initH initV initScore fs).vert.front_porch)
    (hb2 : (parse_mode_fold initH initV initScore fs).vert.active - (n : Int) +
      (parse_mode_fold initH initV initScore fs).vert.front_porch < 65536)
    (hc1 : 0 ≤ (parse_mode_fold initH initV initScore fs).vert.active - (n : Int) +
      (parse_mode_fold initH initV initScore fs).vert.front_porch +
      ((parse_mode_fold initH initV initScore fs).vert.sync_width + (n : Int)))
    (hc2 : (parse_mode_fold initH initV initScore fs).vert.active - (n : Int) +
      (parse_mode_fold initH initV initScore fs).vert.front_porch +
      ((parse_mode_fold initH initV initScore fs).vert.sync_width + (n : Int)) < 65536) :
    (out.mode.vdisplay : Int) =
      (parse_mode_fold initH initV initScore fs).vert.active - (n : Int) ∧
    (out.mode.vsync_start : Int) =
      (parse_mode_fold initH initV initScore fs).vert.active - (n : Int) +
      (parse_mode_fold initH initV initScore fs).vert.front_porch ∧
    (out.mode.vsync_end : Int) =
      (parse_mode_fold initH initV initScore fs).vert.active - (n : Int) +
      (parse_mode_fold initH initV initScore fs).vert.front_porch +
      ((parse_mode_fold initH initV initScore fs).vert.sync_width + (n : Int)) ∧
    (out.mode.vsync_end : Int) - (out.mode.vsync_start : Int) =
      (parse_mode_fold initH initV initScore fs).vert.sync_width + (n : Int) := by
  unfold parse_mode at hout
  split_ifs at hout with h1 h2 h3
  rw [Option.some.injEq] at hout
  subst hout
  simp only [emit_mode]
  rw [toU16_of_range ha1 ha2, toU16_of_range hb1 hb2, toU16_of_range hc1 hc2]
  exact ⟨rfl, rfl, rfl, by ring⟩

/-- A non-virtual entry with vertical active 2000 and sync width 10, used to
exercise the notch adjustment. -/
def tm_notch_entry : List TMField :=
  [TMField.horizontalAttributes
    [DimField.active 1920, DimField.total 2000, DimField.frontPorch 8,
     DimField.syncWidth 32, DimField.preciseSyncRate 0],
   TMField.verticalAttributes
    [DimField.active 2000, DimField.total 2111, DimField.frontPorch 3,
     DimField.syncWidth 10, DimField.preciseSyncRate 3932160],
   TMField.colorModes [(cm0, [CMField.id 3, CMField.isVirtual false, CMField.score 80])],
   TMField.idKey 9, TMField.isVirtual false, TMField.scoreKey 80]

/-- C5 witness: the concrete vertical timing active 2000, sync width 10 with
notch_height 40 produces vdisplay 1960 and a sync width (vsync_end minus
vsync_start) of 50. -/
theorem C5_notch_adjustment_witness :
    ((((parse_mode dim0 dim0 0 tm_notch_entry 40).getD default).mode.vdisplay : Int) =
      (parse_mode_fold dim0 dim0 0 tm_notch_entry).vert.active - ((40 : Nat) : Int) ∧
     (((parse_mode dim0 dim0 0 tm_notch_entry 40).getD default).mode.vsync_start : Int) =
      (parse_mode_fold dim0 dim0 0 tm_notch_entry).vert.active - ((40 : Nat) : Int) +
      (parse_mode_fold dim0 dim0 0 tm_notch_entry).vert.front_porch ∧
     (((parse_mode dim0 dim0 0 tm_notch_entry 40).getD default).mode.vsync_end : Int) =
      (parse_mode_fold dim0 dim0 0 tm_notch_entry).vert.active - ((40 : Nat) : Int) +
      (parse_mode_fold dim0 dim0 0 tm_notch_entry).vert.front_porch +
      ((parse_mode_fold dim0 dim0 0 tm_notch_entry).vert.sync_width + ((40 : Nat) : Int)) ∧
     (((parse_mode dim0 dim0 0 tm_notch_entry 40).getD default).mode.vsync_end : Int) -
      (((parse_mode dim0 dim0 0 tm_notch_entry 40).getD default).mode.vsync_start : Int) =
      (parse_mode_fold dim0 dim0 0 tm_notch_entry).vert.sync_width + ((40 : Nat) : Int)) ∧
    ((parse_mode dim0 dim0 0 tm_notch_entry 40).getD default).mode.vdisplay = 1960 ∧
    ((parse_mode dim0 dim0 0 tm_notch_entry 40).getD default).mode.vsync_end -
      ((parse_mode dim0 dim0 0 tm_notch_entry 40).getD default).mode.vsync_start = 50 :=
  ⟨C5_notch_adjustment dim0 dim0 0 tm_notch_entry 40
      ((parse_mode dim0 dim0 0 tm_notch_entry 40).getD default)
      (by decide) (by decide) (by decide) (by decide) (by decide) (by decide) (by decide),
   by decide, by decide⟩

/-! ## Binary structured-data parser (parser.c, parse_bytes / parse_tag / skip)

The cursor is { blob, len, pos }; bytes are naturals below 256.  A tag is the
little-endian u32 bitfield size:24, type:5, padding:2, last:1; parse_tag
aligns the position up to a multiple of 4 first, and rejects nonzero padding
after having consumed the 4 tag bytes.  Errors carry the C error value -22
(-EINVAL) together with the mutated cursor.  The C skip recursion is bounded
in Lean by explicit fuel; one unit of fuel is consumed per nested skip call,
so any fuel at least the nesting depth gives the C behavior. -/

structure dcp_parse_ctx where
  blob : List Nat
  len : Nat
  pos : Nat
deriving Repr, DecidableEq

structure DcpParseTag where
  size : Nat
  type : Nat
  padding : Nat
  last : Bool
deriving Repr, DecidableEq

def round_up4 (n : Nat) : Nat := (n + 3) / 4 * 4

def parse_bytes (ctx : dcp_parse_ctx) (count : Nat) :
    Except Int (List Nat × dcp_parse_ctx) :=
  if ctx.len < ctx.pos + count then Except.error (-22)
  else Except.ok ((ctx.blob.drop ctx.pos).take count, { ctx with pos := ctx.pos + count })

/-- The u32 read little-endian from the first four bytes. -/
def tag_word (bs : List Nat) : Nat :=
  bs.getD 0 0 + bs.getD 1 0 * 256 + bs.getD 2 0 * 65536 + bs.getD 3 0 * 16777216

def decode_tag (w : Nat) : DcpParseTag :=
  { size := w % 16777216
    type := w / 16777216 % 32
    padding := w / 536870912 % 4
    last := decide (w / 2147483648 % 2 = 1) }

def parse_tag (ctx0 : dcp_parse_ctx) :
    Except (Int × dcp_parse_ctx) (DcpParseTag × dcp_parse_ctx) :=
  match parse_bytes { ctx0 with pos := round_up4 ctx0.pos } 4 with
  | Except.error e => Except.error (e, { ctx0 with pos := round_up4 ctx0.pos })
  | Except.ok (bs, ctx1) =>
    if (decode_tag (tag_word bs)).padding ≠ 0 then Except.error (-22, ctx1)
    else Except.ok (decode_tag (tag_word bs), ctx1)

/-- The loop body of the Dictionary/Array cases of skip: n sequential child
skips, OR-ing the returned error codes like the C `ret |= skip(handle)`. -/
def skip_children (f : dcp_parse_ctx → dcp_parse_ctx × Int) (n : Nat)
    (ctx : dcp_parse_ctx) : dcp_parse_ctx × Int :=
  (List.range n).foldl (fun acc _ => ((f acc.1).1, Int.lor acc.2 (f acc.1).2)) (ctx, 0)

/-- skip, with explicit fuel bounding the recursion depth (the C code
recurses on nested Dictionary/Array values). -/
def skipF : Nat → dcp_parse_ctx → dcp_parse_ctx × Int
  | 0, ctx => (ctx, -22)
  | fuel + 1, ctx =>
    match parse_tag ctx with
    | Except.error (e, c) => (c, e)
    | Except.ok (tag, c) =>
      if tag.type = 1 then skip_children (skipF fuel) (2 * tag.size) c
      else if tag.type = 2 then skip_children (skipF fuel) tag.size c
      else if tag.type = 4 then ({ c with pos := c.pos + 8 }, 0)
      else if tag.type = 9 ∨ tag.type = 10 then ({ c with pos := c.pos + tag.size }, 0)
      else if tag.type = 11 then (c, 0)
      else (c, -22)

lemma parse_tag_ok {ctx : dcp_parse_ctx} {tag : DcpParseTag} {c : dcp_parse_ctx}
    (h : parse_tag ctx = Except.ok (tag, c)) :
    c = { ctx with pos := round_up4 ctx.pos + 4 } ∧ tag.padding = 0 ∧
      round_up4 ctx.pos + 4 ≤ ctx.len := by
  unfold parse_tag parse_bytes at h
  split_ifs at h with h1
  have h1' : ¬ (ctx.len < round_up4 ctx.pos + 4) := h1
  dsimp only at h
  by_cases h2 :
      (decode_tag (tag_word (List.take 4 (List.drop (round_up4 ctx.pos) ctx.blob)))).padding = 0
  · rw [if_neg (fun hc => hc h2)] at h
    simp only [Except.ok.injEq, Prod.mk.injEq] at h
    refine ⟨h.2.symm, ?_, by omega⟩
    rw [← h.1]
    exact h2
  · rw [if_pos h2] at h
    simp at h

/-- C6: after a successful 4-byte-aligned tag read, skip consumes exactly one
value of the recognized type: a Dictionary recursively skips 2 x size child
values (key and value per pair), an Array recursively skips size child
values, an Int64 advances the cursor 8 bytes, a String or Blob advances size
bytes, a Bool advances zero bytes (the boolean lives in the tag size field),
and any other type code fails with -EINVAL; the successful tag read itself
leaves the cursor 4 bytes past the aligned tag position. -/
theorem C6_skip_spec (fuel : Nat) (ctx : dcp_parse_ctx) (tag : DcpParseTag)
    (c : dcp_parse_ctx) (h : parse_tag ctx = Except.ok (tag, c)) :
    c = { ctx with pos := round_up4 ctx.pos + 4 } ∧
    (tag.type = 1 →
      skipF (fuel + 1) ctx = skip_children (skipF fuel) (2 * tag.size) c) ∧
    (tag.type = 2 →
      skipF (fuel + 1) ctx = skip_children (skipF fuel) tag.size c) ∧
    (tag.type = 4 →
      skipF (fuel + 1) ctx = ({ c with pos := c.pos + 8 }, 0)) ∧
    (tag.type = 9 ∨ tag.type = 10 →
      skipF (fuel + 1) ctx = ({ c with pos := c.pos + tag.size }, 0)) ∧
    (tag.type = 11 → skipF (fuel + 1) ctx = (c, 0)) ∧
    (tag.type ≠ 1 → tag.type ≠ 2 → tag.type ≠ 4 → tag.type ≠ 9 → tag.type ≠ 10 →
      tag.type ≠ 11 → skipF (fuel + 1) ctx = (c, -22)) := by
  refine ⟨(parse_tag_ok h).1, fun h1 => ?_, fun h2 => ?_, fun h4 => ?_,
    fun h9 => ?_, fun h11 => ?_, fun n1 n2 n4 n9 n10 n11 => ?_⟩
  · simp [skipF, h, h1]
  · simp [skipF, h, h2]
  · simp [skipF, h, h4]
  · rcases h9 with h9 | h10
    · simp [skipF, h, h9]
    · simp [skipF, h, h10]
  · simp [skipF, h, h11]
  · simp [skipF, h, n1, n2, n4, n9, n10, n11]

/-- C6 witness: a 12-byte buffer holding an Int64 tag (type 4, size 0)
followed by 8 payload bytes; skip lands exactly at the end of the buffer with
return value 0. -/
theorem C6_skip_spec_witness :
    ({ blob := [0, 0, 0, 4, 1, 2, 3, 4, 5, 6, 7, 8], len := 12, pos := 4 } : dcp_parse_ctx) =
      ({ blob := [0, 0, 0, 4, 1, 2, 3, 4, 5, 6, 7, 8], len := 12, pos := round_up4 0 + 4 } : dcp_parse_ctx) ∧
    skipF 1 { blob := [0, 0, 0, 4, 1, 2, 3, 4, 5, 6, 7, 8], len := 12, pos := 0 } =
      ({ blob := [0, 0, 0, 4, 1, 2, 3, 4, 5, 6, 7, 8], len := 12, pos := 12 }, 0) := by
  have h := C6_skip_spec 0
    { blob := [0, 0, 0, 4, 1, 2, 3, 4, 5, 6, 7, 8], len := 12, pos := 0 }
    { size := 0, type := 4, padding := 0, last := false }
    { blob := [0, 0, 0, 4, 1, 2, 3, 4, 5, 6, 7, 8], len := 12, pos := 4 }
    (by rfl)
  exact ⟨h.1, h.2.2.2.1 rfl⟩

/-! ## Callback tag parsing (iomfb.c, dcp_parse_tag / dcpep_handle_cb)

A callback tag is 4 bytes; byte 3 must be the marker character D (68) and
bytes 0..2 must be ASCII digits.  The C code computes
d[i] = (u32)(tag[i] - 0x30) and rejects d[i] > 9, which also rejects bytes
below 0x30 through unsigned wraparound.  dcpep_handle_cb drops the callback
without an ack when the parsed tag is negative, at least DCPEP_MAX_CB, or has
no registered handler. -/

def u32_of_int (x : Int) : Nat := (x % 4294967296).toNat

def dcp_parse_tag (t0 t1 t2 t3 : Nat) : Int :=
  if t3 ≠ 68 then -22
  else if 9 < u32_of_int ((t0 : Int) - 48) then -22
  else if 9 < u32_of_int ((t1 : Int) - 48) then -22
  else if 9 < u32_of_int ((t2 : Int) - 48) then -22
  else ((u32_of_int ((t0 : Int) - 48) + u32_of_int ((t1 : Int) - 48) * 10 +
        u32_of_int ((t2 : Int) - 48) * 100 : Nat) : Int)

def DCPEP_MAX_CB : Nat := 1000

/-- The drop-or-dispatch decision of dcpep_handle_cb: none means the callback
is logged and dropped without pushing depth or sending an ack. -/
def dcpep_handle_cb_lookup (handlers : Nat → Bool) (t0 t1 t2 t3 : Nat) : Option Nat :=
  if dcp_parse_tag t0 t1 t2 t3 < 0 ∨
      (DCPEP_MAX_CB : Int) ≤ dcp_parse_tag t0 t1 t2 t3 ∨
      handlers (dcp_parse_tag t0 t1 t2 t3).toNat = false then none
  else some (dcp_parse_tag t0 t1 t2 t3).toNat

lemma dcp_parse_tag_spec (t0 t1 t2 t3 : Nat)
    (h0 : t0 < 256) (h1 : t1 < 256) (h2 : t2 < 256) :
    ((48 ≤ t0 ∧ t0 ≤ 57 ∧ 48 ≤ t1 ∧ t1 ≤ 57 ∧ 48 ≤ t2 ∧ t2 ≤ 57 ∧ t3 = 68) →
      dcp_parse_tag t0 t1 t2 t3 =
        (((t0 - 48) + (t1 - 48) * 10 + (t2 - 48) * 100 : Nat) : Int)) ∧
    (¬(48 ≤ t0 ∧ t0 ≤ 57 ∧ 48 ≤ t1 ∧ t1 ≤ 57 ∧ 48 ≤ t2 ∧ t2 ≤ 57 ∧ t3 = 68) →
      dcp_parse_tag t0 t1 t2 t3 = -22) := by
  unfold dcp_parse_tag u32_of_int
  split_ifs with e3 e0 e1 e2 <;> constructor <;> intro hv <;> omega

/-- C7: for every 4-byte tag (each byte below 256), when bytes 0..2 are ASCII
digits and byte 3 is the marker D, the parsed callback id is
d0 + d1*10 + d2*100, a value in 0..999; for any other byte pattern
dcp_parse_tag returns the error -22 (-EINVAL) and dcpep_handle_cb drops the
callback without an ack (the lookup yields none), whatever handlers are
registered. -/
theorem C7_callback_tag (t0 t1 t2 t3 : Nat) (handlers : Nat → Bool)
    (h0 : t0 < 256) (h1 : t1 < 256) (h2 : t2 < 256) :
    ((48 ≤ t0 ∧ t0 ≤ 57 ∧ 48 ≤ t1 ∧ t1 ≤ 57 ∧ 48 ≤ t2 ∧ t2 ≤ 57 ∧ t3 = 68) →
      dcp_parse_tag t0 t1 t2 t3 =
        (((t0 - 48) + (t1 - 48) * 10 + (t2 - 48) * 100 : Nat) : Int) ∧
      0 ≤ dcp_parse_tag t0 t1 t2 t3 ∧ dcp_parse_tag t0 t1 t2 t3 ≤ 999) ∧
    (¬(48 ≤ t0 ∧ t0 ≤ 57 ∧ 48 ≤ t1 ∧ t1 ≤ 57 ∧ 48 ≤ t2 ∧ t2 ≤ 57 ∧ t3 = 68) →
      dcp_parse_tag t0 t1 t2 t3 = -22 ∧
      dcpep_handle_cb_lookup handlers t0 t1 t2 t3 = none) := by
  have hs := dcp_parse_tag_spec t0 t1 t2 t3 h0 h1 h2
  constructor
  · intro hv
    have he := hs.1 hv
    refine ⟨he, by rw [he]; omega, by rw [he]; omega⟩
  · intro hv
    have hm := hs.2 hv
    refine ⟨hm, ?_⟩
    unfold dcpep_handle_cb_lookup
    rw [hm]
    norm_num

/-- C7 witness: the tag bytes of the string 123D parse to callback id 321;
the same digits with a wrong marker byte (98) parse to -22 and the callback
is dropped even with every handler registered. -/
theorem C7_callback_tag_witness :
    dcp_parse_tag 49 50 51 68 = (((49 - 48) + (50 - 48) * 10 + (51 - 48) * 100 : Nat) : Int) ∧
    0 ≤ dcp_parse_tag 49 50 51 68 ∧ dcp_parse_tag 49 50 51 68 ≤ 999 ∧
    dcp_parse_tag 49 50 51 98 = -22 ∧
    dcpep_handle_cb_lookup (fun _ => true) 49 50 51 98 = none := by
  have hv := (C7_callback_tag 49 50 51 68 (fun _ => true)
    (by decide) (by decide) (by decide)).1 (by decide)
  have hi := (C7_callback_tag 49 50 51 98 (fun _ => true)
    (by decide) (by decide) (by decide)).2 (by decide)
  exact ⟨hv.1, hv.2.1, hv.2.2, hi.1, hi.2⟩

/-! ## Chunked property transfer (iomfb.c, dcpep_cb_prop_start / dcpep_cb_prop_chunk)

The accumulation buffer is { length, data }; data = none models the NULL
pointer (no transfer in flight).  The buffer contents are a function from
byte index to byte value; the allocation zero-fills.  In the C code
req->offset and req->length are u32, so the bounds check
req->offset + req->length > chunks.length adds them in 32-bit arithmetic
(reduction modulo 2^32) before the comparison, while memcpy uses the
unreduced offset. -/

structure dcp_chunks where
  length : Nat
  data : Option (Nat → Nat)

def dcpep_cb_prop_start (st : dcp_chunks) (length : Nat) (alloc_ok : Bool) :
    dcp_chunks × Bool :=
  match st.data with
  | some _ => (st, false)
  | none =>
    if alloc_ok then ({ length := length, data := some (fun _ => 0) }, true)
    else ({ st with length := length }, false)

def dcpep_cb_prop_chunk (st : dcp_chunks) (offset length : Nat) (data : Nat → Nat) :
    dcp_chunks × Bool :=
  match st.data with
  | none => (st, false)
  | some buf =>
    if st.length < (offset + length) % 4294967296 then (st, false)
    else ({ st with data := some (fun i =>
        if offset ≤ i ∧ i < offset + length then data (i - offset) else buf i) }, true)

/-- C8: at the failing input the u32 bounds check wraps.  With an active
transfer of total length 4096: (a) a second start is ignored and leaves the
state unchanged; (b) a chunk with offset 4294963200 (0xFFFFF000) and length
8192 has a true offset + length of 4294971392, far beyond total_length 4096,
yet the 32-bit sum wraps to 4096, the check passes, the handler returns true
and bytes are written starting at offset 4294963200 - outside the
4096-byte buffer; (c) a non-wrapping overflowing chunk (offset 4000, length
200) is rejected without copying, as the claim demands. -/
theorem C8_chunk_overflow_bypass :
    dcpep_cb_prop_start { length := 4096, data := some (fun _ => 0) } 9999 true =
      ({ length := 4096, data := some (fun _ => 0) }, false) ∧
    (dcpep_cb_prop_chunk { length := 4096, data := some (fun _ => 0) }
      4294963200 8192 (fun _ => 7)).2 = true ∧
    4096 < 4294963200 + 8192 ∧
    ((dcpep_cb_prop_chunk { length := 4096, data := some (fun _ => 0) }
      4294963200 8192 (fun _ => 7)).1.data.getD (fun _ => 0)) 4294963200 = 7 ∧
    dcpep_cb_prop_chunk { length := 4096, data := some (fun _ => 0) }
      4000 200 (fun _ => 7) =
      ({ length := 4096, data := some (fun _ => 0) }, false) := by
  refine ⟨rfl, rfl, by norm_num, rfl, rfl⟩

/-! ## Memory-descriptor callbacks (iomfb.c, dcpep_cb_allocate_buffer /
dcpep_cb_map_physical)

The 128-entry descriptor table is tracked by a bitmap, modelled as a function
from bit index to Bool so that writes beyond index 127 remain observable.
find_first_zero_bit returns its size argument when every bit below size is
set.  dcpep_cb_allocate_buffer checks the returned index against
DCP_MAX_MAPPINGS and replies with a zeroed response when the table is full;
dcpep_cb_map_physical performs no such check before set_bit and the
memdesc[id] write (written_index records the slot the C code stores to). -/

def DCP_MAX_MAPPINGS : Nat := 128

def align4096 (n : Nat) : Nat := (n + 4095) / 4096 * 4096

def find_first_zero_bit (bm : Nat → Bool) (size : Nat) : Nat :=
  ((List.range size).find? (fun i => !bm i)).getD size

structure dcp_allocate_buffer_result where
  bitmap : Nat → Bool
  written_index : Option Nat
  dva_size : Nat
  mem_desc_id : Nat
  dva : Nat

def dcpep_cb_allocate_buffer (bm : Nat → Bool) (size dva : Nat) :
    dcp_allocate_buffer_result :=
  if DCP_MAX_MAPPINGS ≤ find_first_zero_bit bm DCP_MAX_MAPPINGS then
    { bitmap := bm, written_index := none, dva_size := 0, mem_desc_id := 0, dva := 0 }
  else
    { bitmap := fun i => if i = find_first_zero_bit bm DCP_MAX_MAPPINGS then true else bm i
      written_index := some (find_first_zero_bit bm DCP_MAX_MAPPINGS)
      dva_size := align4096 size
      mem_desc_id := find_first_zero_bit bm DCP_MAX_MAPPINGS
      dva := dva }

structure dcp_map_physical_result where
  bitmap : Nat → Bool
  written_index : Option Nat
  dva_size : Nat
  mem_desc_id : Nat

def is_disp_register (regs : List (Nat × Nat)) (start fin : Nat) : Bool :=
  regs.any (fun r => decide (r.1 ≤ start) && decide (fin ≤ r.2))

def dcpep_cb_map_physical (regs : List (Nat × Nat)) (bm : Nat → Bool)
    (paddr size : Nat) : dcp_map_physical_result :=
  if is_disp_register regs paddr (paddr + align4096 size - 1) = false then
    { bitmap := bm, written_index := none, dva_size := 0, mem_desc_id := 0 }
  else
    { bitmap := fun i => if i = find_first_zero_bit bm DCP_MAX_MAPPINGS then true else bm i
      written_index := some (find_first_zero_bit bm DCP_MAX_MAPPINGS)
      dva_size := align4096 size
      mem_desc_id := find_first_zero_bit bm DCP_MAX_MAPPINGS }

/-- C9: with the 128-entry table full (every bit below 128 set),
allocate-buffer replies with the all-zero response and leaves the bitmap
untouched, exactly as the claim says; but map-physical of a valid display
register range performs no full-table check: find_first_zero_bit returns
128, the handler records slot 128 as the descriptor it writes (out of range
for the 128-entry table, indices 0..127) and sets bit 128, which lies
outside the declared 128-bit bitmap. -/
theorem C9_map_physical_table_full :
    dcpep_cb_allocate_buffer (fun i => decide (i < 128)) 4096 555 =
      { bitmap := fun i => decide (i < 128), written_index := none,
        dva_size := 0, mem_desc_id := 0, dva := 0 } ∧
    (dcpep_cb_map_physical [(4096, 8191)] (fun i => decide (i < 128))
      4096 4096).written_index = some 128 ∧
    DCP_MAX_MAPPINGS ≤ 128 ∧
    (dcpep_cb_map_physical [(4096, 8191)] (fun i => decide (i < 128))
      4096 4096).bitmap 128 = true ∧
    (fun i : Nat => decide (i < 128)) 128 = false := by
  refine ⟨rfl, rfl, by norm_num [DCP_MAX_MAPPINGS], rfl, rfl⟩
